import Mathlib

/-!
Verification development for the vplanet integration core.

The C sources (`evolve.c`, `atmesc.c`, `stellar.c`, `vplanet.c`) are shallowly
embedded over exact rationals (`ℚ`): every IEEE double of the program is
idealised as a rational, machine arithmetic as exact field arithmetic.
Library calls with irrational results (`pow` with fractional exponent,
`log10`, `sqrt`, `sin`) and repository functions defined in translation
units outside the four sources (`fdBaraffe`, `fdXUVFlux`, `fdInstellation`,
`fdLehmerPres`, `fdLehmerRadius`, `bFloatComparison`) are treated as
uninterpreted oracle parameters, so every theorem quantifies over them.
Numeric header constants (`vplanet.h`) are fixed as their rational literal
values; none of the theorems depend on the particular values.
-/

namespace VPlanet

/-- `DBL_MAX` from float.h: the largest finite double, `2^1024 - 2^971`. -/
def dHUGE : ℚ := 2 ^ 1024 - 2 ^ 971

/-- `const double dTINY = 1./DBL_MAX;` (vplanet.c line 27). -/
def dTINY : ℚ := 1 / dHUGE

theorem dTINY_pos : 0 < dTINY := by
  have h : (0 : ℚ) < dHUGE := by norm_num [dHUGE]
  exact div_pos one_pos h

/-- Header constant `PI` (as a double literal). -/
def PI : ℚ := 3.1415926535897932

/-- Header constant `BIGG`, Newton's constant. -/
def BIGG : ℚ := 6.67428e-11

/-- Header constant `KBOLTZ`, Boltzmann's constant. -/
def KBOLTZ : ℚ := 1.38064852e-23

/-- Header constant `ATOMMASS`, the mass of a hydrogen atom in kg. -/
def ATOMMASS : ℚ := 1.660538921e-27

theorem ATOMMASS_pos : 0 < ATOMMASS := by norm_num [ATOMMASS]

/-- Header constant `QOH`, the ratio of the O and H atomic masses. -/
def QOH : ℚ := 16

/-- Header constant `MEARTH`, Earth's mass in kg. -/
def MEARTH : ℚ := 5.972186e24

/-- Header constant `LSUN`, the solar luminosity in W. -/
def LSUN : ℚ := 3.846e26

/-- Header constant `AUM`, one astronomical unit in m. -/
def AUM : ℚ := 1.49598e11

/-- Header verbosity threshold `VERBINPUT`. -/
def VERBINPUT : ℕ := 3

/-!
## evolve.c — integration control

`AssignDt`, `fdNextOutput`, `fdGetTimeStep` and `RungeKutta4Step` are embedded
over a per-variable update matrix.  The C code's body/variable double loop is
flattened to a single vector of `n` variable slots; each slot carries the
fields of its owning body that the timestep selector reads
(`TsBodyCfg`), its equation count `iNumEqns`, its per-equation type tags
`iaType` and its per-equation contributor callbacks `fnUpdate`.  Contributor
callbacks read the primary-variable vector; the auxiliary-properties pass,
which in C recomputes derived body fields from primaries before every
evaluation, is folded into the callbacks (it is a pure function of the
primaries).  The scratch array `daDerivProc` becomes `scr : Fin n → ℕ → ℚ`.
-/

/-- `double AssignDt(double dMin, double dNextOutput, double dEta)`
(evolve.c lines 54-64). -/
def AssignDt (dMin dNextOutput dEta : ℚ) : ℚ :=
  let dMin := dEta * dMin
  if dNextOutput < dMin then dNextOutput else dMin

/-- C truncating cast `(int)` on a rational. -/
def cIntCast (x : ℚ) : ℤ := if 0 ≤ x then ⌊x⌋ else ⌈x⌉

/-- `double fdNextOutput(double dTime, double dOutputInterval)`
(evolve.c lines 66-74). -/
def fdNextOutput (dTime dOutputInterval : ℚ) : ℚ :=
  ((cIntCast (dTime / dOutputInterval) : ℚ) + 1) * dOutputInterval

/-- Per-body fields read by `fdGetTimeStep`'s per-equation branches, attached
to each flattened variable slot, together with the slot-role flags
(`iVar == iXobl/iYobl/iZobl` and `iVar == iHecc/iKecc` of the owning body). -/
structure TsBodyCfg where
  dObliquity : ℚ := 0
  dEcc : ℚ := 0
  bIsOblTrio : Bool := false
  bIsEccPair : Bool := false
  iMinIceDt : ℚ := 0
  dMeanMotion : ℚ := 1
  dPositionX : ℚ := 0
  dPositionY : ℚ := 0
  dPositionZ : ℚ := 0
  dVelX : ℚ := 1
  dVelY : ℚ := 0
  dVelZ : ℚ := 0

/-- One variable slot of the update matrix: `update[iBody]` data for one
`iVar`, over a state vector of `n` primary variables. -/
structure UpdateVar (n : ℕ) where
  cfg : TsBodyCfg := {}
  iNumEqns : ℕ
  iaType : ℕ → ℕ
  fnUpdate : ℕ → (Fin n → ℚ) → ℚ

/-- Oracles for libm calls and for `bFloatComparison` (defined outside the
four embedded sources). -/
structure CMath where
  sinQ : ℚ → ℚ := fun _ => 0
  sqrtQ : ℚ → ℚ := fun _ => 0
  bFloatComparison : ℚ → ℚ → Bool := fun a b => a == b

/-- Global integrator fields read by the step routines
(`control->Evolve` and `control->Io`). -/
structure EvolveCtl where
  bFirstStep : Bool := false
  dTimeStep : ℚ := 1
  dTime : ℚ := 0
  dOutputTime : ℚ := 1
  dEta : ℚ := 1
  bSpiNBodyDistOrb : Bool := false
  bUsingSpiNBody : Bool := false
  bVarDt : Bool := true
  iDir : ℚ := 1

variable {n : ℕ}

/-- Sum of a variable's scratch derivative row over its equations
(`for (iEqn...) dVarTotal += update...daDerivProc[iVar][iEqn]`). -/
def derivProcSum (V : UpdateVar n) (s : ℕ → ℚ) : ℚ :=
  ∑ k in Finset.range V.iNumEqns, s k

/-- The `daDerivProc` contents after `fdGetTimeStep`: every equation is
evaluated at the current state except those of an `iaType[iVar][0] == 10`
variable (that branch, evolve.c lines 141-148, fills nothing) and the
`iaType == 7` equations when SpiNBody is deferred (lines 224-231). -/
def scrAfterTimeStep (C : EvolveCtl) (M : Fin n → UpdateVar n)
    (x : Fin n → ℚ) (scr : Fin n → ℕ → ℚ) : Fin n → ℕ → ℚ := fun v k =>
  let V := M v
  if k < V.iNumEqns then
    if V.iaType 0 = 0 ∨ V.iaType 0 = 3 ∨ V.iaType 0 = 5 then V.fnUpdate k x
    else if V.iaType 0 = 10 then scr v k
    else if V.iaType k = 7 ∧ C.bSpiNBodyDistOrb ∧ ¬ C.bUsingSpiNBody then scr v k
    else V.fnUpdate k x
  else scr v k

/-- One equation's contribution to the running minimum timescale, for a
variable dispatched to the per-equation branches of `fdGetTimeStep`
(evolve.c lines 177-241). -/
def eqnTimescaleStep (O : CMath) (C : EvolveCtl) (V : UpdateVar n)
    (xv : ℚ) (s : ℕ → ℚ) (dMin : ℚ) (k : ℕ) : ℚ :=
  if V.iaType k = 2 then
    if s k ≠ 0 then
      let dMinNow :=
        if V.cfg.bIsOblTrio then
          if V.cfg.dObliquity ≠ 0 then |O.sinQ V.cfg.dObliquity / s k| else dHUGE
        else if V.cfg.bIsEccPair then
          if V.cfg.dEcc ≠ 0 then |V.cfg.dEcc / s k| else dHUGE
        else |1 / s k|
      if dMinNow < dMin then dMinNow else dMin
    else dMin
  else if V.iaType k = 9 then
    if s k ≠ 0 ∧ xv ≠ 0 then
      let dMinNow := |xv / s k|
      if dMinNow < dMin then
        if dMinNow < V.cfg.iMinIceDt * (2 * PI / V.cfg.dMeanMotion) / C.dEta then
          V.cfg.iMinIceDt * (2 * PI / V.cfg.dMeanMotion) / C.dEta
        else dMinNow
      else dMin
    else dMin
  else if V.iaType k = 7 then
    if ¬ C.bSpiNBodyDistOrb ∨ C.bUsingSpiNBody then
      let dMinNow := O.sqrtQ
        ((V.cfg.dPositionX * V.cfg.dPositionX + V.cfg.dPositionY * V.cfg.dPositionY
            + V.cfg.dPositionZ * V.cfg.dPositionZ)
          / (V.cfg.dVelX * V.cfg.dVelX + V.cfg.dVelY * V.cfg.dVelY
            + V.cfg.dVelZ * V.cfg.dVelZ))
      if dMinNow < dMin then dMinNow else dMin
    else dMin
  else
    if ¬ O.bFloatComparison (s k) 0 ∧ ¬ O.bFloatComparison xv 0 then
      let dMinNow := |xv / s k|
      if dMinNow < dMin then dMinNow else dMin
    else dMin

/-- One variable's effect on `(dMin, bFirstStep)` in `fdGetTimeStep`'s main
loop (evolve.c lines 96-243), given the already-filled scratch row. -/
def varTimescaleStep (O : CMath) (C : EvolveCtl) (M : Fin n → UpdateVar n)
    (x : Fin n → ℚ) (scr : Fin n → ℕ → ℚ) (p : ℚ × Bool) (v : Fin n) : ℚ × Bool :=
  let dMin := p.1
  let bFirst := p.2
  let V := M v
  if V.iaType 0 = 0 then
    if bFirst then (C.dTimeStep, false)
    else
      let dVarNow := x v
      let dVarTotal := derivProcSum V (scr v)
      if dVarNow ≠ dVarTotal then
        let dMinNow := |dVarNow / ((dVarNow - dVarTotal) / C.dTimeStep)|
        (if dMinNow < dMin then dMinNow else dMin, bFirst)
      else (dMin, bFirst)
  else if V.iaType 0 = 5 then (dMin, bFirst)
  else if V.iaType 0 = 10 then
    let dMinNow := fdNextOutput C.dTime C.dOutputTime
    (if dMinNow < dMin then dMinNow else dMin, bFirst)
  else if V.iaType 0 = 3 then
    if bFirst then (C.dTimeStep, false)
    else
      let dVarNow := x v
      let dVarTotal := derivProcSum V (scr v)
      if dVarNow ≠ dVarTotal then
        let dMinNow := |1 / ((dVarNow - dVarTotal) / C.dTimeStep)|
        (if dMinNow < dMin then dMinNow else dMin, bFirst)
      else (dMin, bFirst)
  else
    ((List.range V.iNumEqns).foldl (eqnTimescaleStep O C V (x v) (scr v)) dMin, bFirst)

/-- `double fdGetTimeStep(...)` (evolve.c lines 76-248): fills the scratch
derivative rows and folds the per-variable characteristic times into the
minimum, starting from `dMin = dHUGE`; also returns the possibly-cleared
first-step flag and the updated scratch. -/
def fdGetTimeStep (O : CMath) (C : EvolveCtl) (M : Fin n → UpdateVar n)
    (x : Fin n → ℚ) (scr : Fin n → ℕ → ℚ) : ℚ × Bool × (Fin n → ℕ → ℚ) :=
  let scr' := scrAfterTimeStep C M x scr
  let p := (List.finRange n).foldl (varTimescaleStep O C M x scr') (dHUGE, C.bFirstStep)
  (p.1, p.2, scr')

/-!
### RungeKutta4Step (evolve.c lines 306-458)

The step is decomposed into one definition per program point; the record
`RungeKutta4Step` assembles them.  `scr` is `tmpUpdate.daDerivProc` on entry
(it persists between steps), `d3in` is the persistent `evolve->daDeriv[3]`
slice, whose cells are not rewritten for value-type variables (lines
428-442).  Variables whose `iaType[iVar][0]` is 0, 3 or 10 are "value type":
at every stage they are assigned the accumulated stage value instead of being
advanced by it (lines 357-365 etc.), and at write-back they receive the
stage-0 value (line 452).
-/

/-- The value-type test `iaType[iVar][0] == 0 || == 3 || == 10` used by all
four RK4 stage loops. -/
def isValueType (t : ℕ) : Prop := t = 0 ∨ t = 3 ∨ t = 10

instance (t : ℕ) : Decidable (isValueType t) := by
  unfold isValueType; infer_instance

/-- All inputs of one `RungeKutta4Step` call. -/
structure RK4In (n : ℕ) where
  O : CMath := {}
  C : EvolveCtl := {}
  M : Fin n → UpdateVar n
  x : Fin n → ℚ
  scr : Fin n → ℕ → ℚ := fun _ _ => 0
  d3in : Fin n → ℚ := fun _ => 0

/-- Scratch rows after the initial `fdGetTimeStep` call (line 325). -/
def rk4Scr0 (I : RK4In n) : Fin n → ℕ → ℚ := (fdGetTimeStep I.O I.C I.M I.x I.scr).2.2

/-- The minimum characteristic time returned by the initial `fdGetTimeStep`
call (line 325). -/
def rk4DMin (I : RK4In n) : ℚ := (fdGetTimeStep I.O I.C I.M I.x I.scr).1

/-- The selected timestep (lines 330-336): `AssignDt` of the minimum
timescale against the time to next output when `bVarDt`, else the fixed
`dTimeStep`. -/
def rk4Dt (I : RK4In n) : ℚ :=
  if I.C.bVarDt then
    AssignDt (rk4DMin I) (fdNextOutput I.C.dTime I.C.dOutputTime - I.C.dTime) I.C.dEta
  else I.C.dTimeStep

/-- `evolve->daDeriv[0]` (lines 349-355): per-variable sum of `iDir` times
the scratch contributor results from the start-of-step evaluation. -/
def rk4D0 (I : RK4In n) : Fin n → ℚ := fun v =>
  ∑ k in Finset.range (I.M v).iNumEqns, I.C.iDir * rk4Scr0 I v k

/-- The scratch state after the stage-0 write (lines 357-365): value-type
variables are assigned `daDeriv[0]`, others are moved to the midpoint. -/
def rk4Tmp1 (I : RK4In n) : Fin n → ℚ := fun v =>
  if isValueType ((I.M v).iaType 0) then rk4D0 I v
  else I.x v + 1 / 2 * rk4Dt I * rk4D0 I v

/-- Scratch rows after the first midpoint `fdGetUpdateInfo` (line 372),
which evaluates every equation of every variable. -/
def rk4Scr1 (I : RK4In n) : Fin n → ℕ → ℚ := fun v k =>
  if k < (I.M v).iNumEqns then (I.M v).fnUpdate k (rk4Tmp1 I) else rk4Scr0 I v k

/-- `evolve->daDeriv[1]` (lines 377-381). -/
def rk4D1 (I : RK4In n) : Fin n → ℚ := fun v =>
  ∑ k in Finset.range (I.M v).iNumEqns, I.C.iDir * rk4Scr1 I v k

/-- Stage-1 write (lines 383-392): midpoint from the ORIGINAL state. -/
def rk4Tmp2 (I : RK4In n) : Fin n → ℚ := fun v =>
  if isValueType ((I.M v).iaType 0) then rk4D1 I v
  else I.x v + 1 / 2 * rk4Dt I * rk4D1 I v

/-- Scratch rows after the second midpoint `fdGetUpdateInfo` (line 399). -/
def rk4Scr2 (I : RK4In n) : Fin n → ℕ → ℚ := fun v k =>
  if k < (I.M v).iNumEqns then (I.M v).fnUpdate k (rk4Tmp2 I) else rk4Scr1 I v k

/-- `evolve->daDeriv[2]` (lines 404-407). -/
def rk4D2 (I : RK4In n) : Fin n → ℚ := fun v =>
  ∑ k in Finset.range (I.M v).iNumEqns, I.C.iDir * rk4Scr2 I v k

/-- Stage-2 write (lines 410-419): endpoint from the ORIGINAL state. -/
def rk4Tmp3 (I : RK4In n) : Fin n → ℚ := fun v =>
  if isValueType ((I.M v).iaType 0) then rk4D2 I v
  else I.x v + rk4Dt I * rk4D2 I v

/-- Scratch rows after the full-step `fdGetUpdateInfo` (line 426). -/
def rk4Scr3 (I : RK4In n) : Fin n → ℕ → ℚ := fun v k =>
  if k < (I.M v).iNumEqns then (I.M v).fnUpdate k (rk4Tmp3 I) else rk4Scr2 I v k

/-- `evolve->daDeriv[3]` (lines 428-442): accumulated only for non-value
variables; value-type cells keep their previous contents ("NOTHING!"). -/
def rk4D3 (I : RK4In n) : Fin n → ℚ := fun v =>
  if isValueType ((I.M v).iaType 0) then I.d3in v
  else ∑ k in Finset.range (I.M v).iNumEqns, I.C.iDir * rk4Scr3 I v k

/-- `update[iBody].daDeriv[iVar]` at write-back (lines 447-448). -/
def rk4DerivUpd (I : RK4In n) : Fin n → ℚ := fun v =>
  1 / 6 * (rk4D0 I v + 2 * rk4D1 I v + 2 * rk4D2 I v + rk4D3 I v)

/-- The primary-state write-back (lines 450-455): value-type variables are
assigned `daDeriv[0]`, the rest are incremented by the weighted sum times
the timestep. -/
def rk4XOut (I : RK4In n) : Fin n → ℚ := fun v =>
  if isValueType ((I.M v).iaType 0) then rk4D0 I v
  else I.x v + rk4DerivUpd I v * rk4Dt I

/-- All outputs of one `RungeKutta4Step` call. -/
structure RK4Out (n : ℕ) where
  dDt : ℚ
  xOut : Fin n → ℚ
  d0 : Fin n → ℚ
  d1 : Fin n → ℚ
  d2 : Fin n → ℚ
  d3 : Fin n → ℚ
  daDeriv : Fin n → ℚ
  scrOut : Fin n → ℕ → ℚ
  bFirstStepOut : Bool

/-- `void RungeKutta4Step(...)` (evolve.c lines 306-458), assembled from the
stage definitions above. -/
def RungeKutta4Step (I : RK4In n) : RK4Out n where
  dDt := rk4Dt I
  xOut := rk4XOut I
  d0 := rk4D0 I
  d1 := rk4D1 I
  d2 := rk4D2 I
  d3 := rk4D3 I
  daDeriv := rk4DerivUpd I
  scrOut := rk4Scr3 I
  bFirstStepOut := (fdGetTimeStep I.O I.C I.M I.x I.scr).2.1

/-!
## atmesc.c — atmospheric escape module

Bodies are embedded as a function `ℕ → AtmBody` (the `BODY *body` array);
a hook writing `body[i]` becomes `Function.update`.  Enumeration macros from
vplanet.h (`ATMESC_LEHMER17`, `ATMESC_LB15`, ...) become inductive tags.
-/

/-- `iPlanetRadiusModel` tags (`ATMESC_*` macros). -/
inductive PlanetRadiusModel
  | lehmer17
  | lop12
  | proxcenb
  | otherRad
deriving DecidableEq

/-- `iWaterLossModel` tags. -/
inductive WaterLossModel
  | lb15
  | lbexact
  | tian
  | otherWater
deriving DecidableEq

/-- `iWaterEscapeRegime` tags. -/
inductive WaterEscapeRegime
  | regimeNone
  | elim
  | difflim
deriving DecidableEq

/-- `iAtmXAbsEffH2OModel` tags. -/
inductive AtmXAbsEffH2OModel
  | bol16
  | otherEff
deriving DecidableEq

/-- The fields of `struct BODY` read or written by the embedded atmesc
functions. -/
structure AtmBody where
  dAge : ℚ := 0
  dMass : ℚ := 1
  dEnvelopeMass : ℚ := 0
  dSurfaceWaterMass : ℚ := 0
  dOxygenMass : ℚ := 0
  dOxygenMantleMass : ℚ := 0
  dJeansTime : ℚ := 0
  dRGDuration : ℚ := 0
  dSemi : ℚ := 1
  dRadius : ℚ := 1
  dXFrac : ℚ := 1
  dKTide : ℚ := 1
  bRocheMessage : Bool := false
  bBinary : Bool := false
  iBodyType : ℕ := 0
  iPlanetRadiusModel : PlanetRadiusModel := .otherRad
  iWaterLossModel : WaterLossModel := .otherWater
  iAtmXAbsEffH2OModel : AtmXAbsEffH2OModel := .otherEff
  bRunaway : Bool := false
  bInstantO2Sink : Bool := false
  dOxygenEta : ℚ := 0
  dCrossoverMass : ℚ := 0
  dMDotWater : ℚ := 0
  dFlowTemp : ℚ := 400
  dFHRef : ℚ := 0
  dFHDiffLim : ℚ := 0
  dAtmXAbsEffH : ℚ := 0
  dAtmXAbsEffH2O : ℚ := 1
  bCalcFXUV : Bool := false
  dFXUV : ℚ := 0
  iWaterEscapeRegime : WaterEscapeRegime := .regimeNone
  dRadSolid : ℚ := 1
  dGravAccel : ℚ := 1
  dScaleHeight : ℚ := 1
  dPresSurf : ℚ := 0
  dRadXUV : ℚ := 1
  dAtmGasConst : ℚ := 1
  dThermTemp : ℚ := 1
  dPresXUV : ℚ := 1
  dTemperature : ℚ := 5780
  dMinEnvelopeMass : ℚ := 0

/-- Oracles for libm calls and for repository functions defined in
translation units outside the embedded sources (`fdXUVFlux` and
`fdInstellation` read the whole body array; `fdLehmerPres`/`fdLehmerRadius`
are pure). -/
structure AtmEscLib where
  powQ : ℚ → ℚ → ℚ := fun _ _ => 1
  log10Q : ℚ → ℚ := fun _ => 0
  fdLehmerPres : ℚ → ℚ → ℚ → ℚ := fun _ _ _ => 0
  fdLehmerRadius : ℚ → ℚ → ℚ → ℚ → ℚ := fun _ _ _ _ => 1
  fdXUVFlux : (ℕ → AtmBody) → ℕ → ℚ := fun _ _ => 0
  fdInstellation : (ℕ → AtmBody) → ℕ → ℚ := fun _ _ => 0

/-- Write body `i` of the array (`body[i] = b`). -/
def updBody (bs : ℕ → AtmBody) (i : ℕ) (b : AtmBody) : ℕ → AtmBody :=
  Function.update bs i b

/-- `double fdAtomicOxygenMixingRatio(double dSurfaceWaterMass, double
dOxygenMass)` (atmesc.c lines 2474-2487). -/
def fdAtomicOxygenMixingRatio (dSurfaceWaterMass dOxygenMass : ℚ) : ℚ :=
  let NO2 := dOxygenMass / (32 * ATOMMASS)
  let NH2O := dSurfaceWaterMass / (18 * ATOMMASS)
  if NH2O > 0 then 1 / (1 + 1 / (0.5 + NO2 / NH2O))
  else if NO2 > 0 then 1
  else 0

/-- `void fvLinearFit(double *x, double *y, int iLen, double *daCoeffs)`
(atmesc.c lines 2581-2600), returning `(slope, intercept)`. -/
def fvLinearFit (x y : List ℚ) : ℚ × ℚ :=
  let iLen : ℚ := (x.length : ℚ)
  let xavg := x.sum / iLen
  let yavg := y.sum / iLen
  let num := ((x.zip y).map (fun p => (p.1 - xavg) * (p.2 - yavg))).sum
  let den := (x.map (fun a => (a - xavg) * (a - xavg))).sum
  (num / den, yavg - num / den * xavg)

/-- `double fdHZRG14(BODY *body, int iBody)` (atmesc.c lines 2502-2527):
log-linear fit to the Kopparapu+14 mass-dependent runaway-greenhouse limit,
evaluated against body 0's effective temperature. -/
def fdHZRG14 (L : AtmEscLib) (bs : ℕ → AtmBody) (iBody : ℕ) : ℚ :=
  let tstar := (bs 0).dTemperature - 5780
  let daLogMP : List ℚ := [-1, 0, 0.69897]
  let seff0 := 0.99 + 1.209e-4 * tstar + 1.404e-8 * tstar * tstar
    + (-7.418e-12) * L.powQ tstar 3 + (-1.713e-15) * L.powQ tstar 4
  let seff1 := 1.107 + 1.332e-4 * tstar + 1.58e-8 * tstar * tstar
    + (-8.308e-12) * L.powQ tstar 3 + (-1.931e-15) * L.powQ tstar 4
  let seff2 := 1.188 + 1.433e-4 * tstar + 1.707e-8 * tstar * tstar
    + (-8.968e-12) * L.powQ tstar 3 + (-2.084e-15) * L.powQ tstar 4
  let daCoeffs := fvLinearFit daLogMP [seff0, seff1, seff2]
  (daCoeffs.1 * L.log10Q ((bs iBody).dMass / MEARTH) + daCoeffs.2)
    * LSUN / (4 * PI * AUM * AUM)

/-- `double fdXUVEfficiencyBolmont2016(double dFXUV)` (atmesc.c lines
2535-2568): piecewise polynomial fit in `log10` of the flux. -/
def fdXUVEfficiencyBolmont2016 (L : AtmEscLib) (dFXUV : ℚ) : ℚ :=
  let a0 : ℚ := 1.49202
  let a1 : ℚ := 5.57875
  let a2 : ℚ := 2.27482
  let b0 : ℚ := 0.59182134
  let b1 : ℚ := -0.36140798
  let b2 : ℚ := -0.04011933
  let b3 : ℚ := -0.8988
  let c0 : ℚ := -0.00441536
  let c1 : ℚ := -0.03068399
  let c2 : ℚ := 0.04946948
  let c3 : ℚ := -0.89880083
  let x := L.log10Q (dFXUV * 1e3)
  if x ≥ -2 ∧ x < -1 then L.powQ 10 (a0 * x * x + a1 * x + a2)
  else if x ≥ -1 ∧ x < 0 then L.powQ 10 (b0 * x * x * x + b1 * x * x + b2 * x + b3)
  else if x ≥ 0 ∧ x ≤ 5 then L.powQ 10 (c0 * x * x * x + c1 * x * x + c2 * x + c3)
  else 0

/-- `int fbDoesWaterEscape(BODY *body, int iBody)` (atmesc.c lines
2430-2466).  The C function both returns the flag and latches
`dRGDuration`; the embedding returns the flag together with the updated
body array. -/
def fbDoesWaterEscape (L : AtmEscLib) (bs : ℕ → AtmBody) (iBody : ℕ) :
    Bool × (ℕ → AtmBody) :=
  let b := bs iBody
  if b.dEnvelopeMass > 0 then
    if b.dRGDuration = 0 ∧ L.fdInstellation bs iBody < fdHZRG14 L bs iBody then
      (false, updBody bs iBody {b with dRGDuration := b.dAge})
    else (false, bs)
  else if L.fdInstellation bs iBody < fdHZRG14 L bs iBody then
    if b.dRGDuration = 0 then (false, updBody bs iBody {b with dRGDuration := b.dAge})
    else (false, bs)
  else if b.dSurfaceWaterMass ≤ 0 then (false, bs)
  else if b.dAge > b.dJeansTime then (false, bs)
  else (true, bs)

/-- `double fdDSurfaceWaterMassDt(...)` (atmesc.c lines 2259-2271), with
`iaBody0 = iaBody[0]`. -/
def fdDSurfaceWaterMassDt (bs : ℕ → AtmBody) (iaBody0 : ℕ) : ℚ :=
  let b := bs iaBody0
  if b.bRunaway ∧ b.dSurfaceWaterMass > 0 then
    -(9 / (1 + 8 * b.dOxygenEta)) * b.dMDotWater
  else 0

/-- `double fdDOxygenMassDt(...)` (atmesc.c lines 2280-2305). -/
def fdDOxygenMassDt (L : AtmEscLib) (bs : ℕ → AtmBody) (iaBody0 : ℕ) : ℚ :=
  let b := bs iaBody0
  if b.bRunaway ∧ ¬ b.bInstantO2Sink ∧ b.dSurfaceWaterMass > 0 then
    if b.iWaterLossModel = .lb15 then
      if b.dCrossoverMass ≥ 16 * ATOMMASS then
        let BDIFF := 4.8e19 * L.powQ b.dFlowTemp 0.75
        (320 * PI * BIGG * ATOMMASS * ATOMMASS * BDIFF * b.dMass) / (KBOLTZ * b.dFlowTemp)
      else (8 - 8 * b.dOxygenEta) / (1 + 8 * b.dOxygenEta) * b.dMDotWater
    else (8 - 8 * b.dOxygenEta) / (1 + 8 * b.dOxygenEta) * b.dMDotWater
  else 0

/-- `double fdDOxygenMantleMassDt(...)` (atmesc.c lines 2314-2339). -/
def fdDOxygenMantleMassDt (L : AtmEscLib) (bs : ℕ → AtmBody) (iaBody0 : ℕ) : ℚ :=
  let b := bs iaBody0
  if b.bRunaway ∧ b.bInstantO2Sink ∧ b.dSurfaceWaterMass > 0 then
    if b.iWaterLossModel = .lb15 then
      if b.dCrossoverMass ≥ 16 * ATOMMASS then
        let BDIFF := 4.8e19 * L.powQ b.dFlowTemp 0.75
        (320 * PI * BIGG * ATOMMASS * ATOMMASS * BDIFF * b.dMass) / (KBOLTZ * b.dFlowTemp)
      else (8 - 8 * b.dOxygenEta) / (1 + 8 * b.dOxygenEta) * b.dMDotWater
    else (8 - 8 * b.dOxygenEta) / (1 + 8 * b.dOxygenEta) * b.dMDotWater
  else 0

/-- `double fdDEnvelopeMassDt(...)` (atmesc.c lines 2348-2369).  Note the
early return of `dTINY` (not 0). -/
def fdDEnvelopeMassDt (L : AtmEscLib) (bs : ℕ → AtmBody) (iaBody0 : ℕ) : ℚ :=
  let b := bs iaBody0
  if b.dEnvelopeMass ≤ 0 ∨ b.dAge > b.dJeansTime then dTINY
  else if b.iPlanetRadiusModel = .lehmer17 then
    -b.dAtmXAbsEffH * PI * b.dFXUV * L.powQ b.dRadXUV 3 / (BIGG * (b.dMass - b.dEnvelopeMass))
  else
    -b.dFHRef * (b.dAtmXAbsEffH / b.dAtmXAbsEffH2O)
      * (4 * ATOMMASS * PI * b.dRadius * b.dRadius * b.dXFrac * b.dXFrac)

/-!
### fnPropsAuxAtmEsc (atmesc.c lines 945-1069)

The hook is split into one definition per contiguous source block; the
composition `fnPropsAuxAtmEsc` runs them in source order.
-/

/-- Line 947: `body[iBody].dAge = body[0].dAge;`. -/
def propsAuxAgeSync (bs : ℕ → AtmBody) (iBody : ℕ) : ℕ → AtmBody :=
  updBody bs iBody {bs iBody with dAge := (bs 0).dAge}

/-- Lines 949-955: the LEHMER17 solid-radius/scale-height/XUV-radius
recomputation. -/
def propsAuxLehmer (L : AtmEscLib) (bs : ℕ → AtmBody) (iBody : ℕ) : ℕ → AtmBody :=
  let b := bs iBody
  if b.iPlanetRadiusModel = .lehmer17 then
    let dRadSolid := 1.3 * L.powQ (b.dMass - b.dEnvelopeMass) 0.27
    let dGravAccel := BIGG * (b.dMass - b.dEnvelopeMass) / (dRadSolid * dRadSolid)
    let dScaleHeight := b.dAtmGasConst * b.dThermTemp / dGravAccel
    let dPresSurf := L.fdLehmerPres b.dEnvelopeMass dGravAccel dRadSolid
    let dRadXUV := L.fdLehmerRadius dRadSolid b.dPresXUV dScaleHeight dPresSurf
    updBody bs iBody { b with
      dRadSolid := dRadSolid
      dGravAccel := dGravAccel
      dScaleHeight := dScaleHeight
      dPresSurf := dPresSurf
      dRadXUV := dRadXUV }
  else bs

/-- The dimensionless `xi` of lines 958-959. -/
def atmescXi (L : AtmEscLib) (bs : ℕ → AtmBody) (iBody : ℕ) : ℚ :=
  (L.powQ ((bs iBody).dMass / (3 * (bs 0).dMass)) (1 / 3) * (bs iBody).dSemi)
    / ((bs iBody).dRadius * (bs iBody).dXFrac)

/-- Lines 957-975: the `Ktide` block.  When `xi > 1` the Roche-lobe value is
written, but line 974 then unconditionally overwrites `dKTide` with `1.0`;
when `xi ≤ 1` the one-shot warning flag is latched (under the verbosity
gate) before the same overwrite. -/
def propsAuxKTide (L : AtmEscLib) (iVerbose : ℕ) (bs : ℕ → AtmBody)
    (iBody : ℕ) : ℕ → AtmBody :=
  let b := bs iBody
  let xi := atmescXi L bs iBody
  if b.bBinary ∧ b.iBodyType = 0 then updBody bs iBody {b with dKTide := 1}
  else
    let b1 :=
      if xi > 1 then {b with dKTide := 1 - 3 / (2 * xi) + 1 / (2 * L.powQ xi 3)}
      else if ¬ b.bRocheMessage ∧ VERBINPUT ≤ iVerbose then {b with bRocheMessage := true}
      else b
    updBody bs iBody {b1 with dKTide := 1}

/-- Lines 978-980: the XUV flux, when not user-supplied. -/
def propsAuxFXUV (L : AtmEscLib) (bs : ℕ → AtmBody) (iBody : ℕ) : ℕ → AtmBody :=
  let b := bs iBody
  if b.bCalcFXUV then updBody bs iBody {b with dFXUV := L.fdXUVFlux bs iBody}
  else bs

/-- Lines 983-984: the Bolmont 2016 H2O XUV escape efficiency. -/
def propsAuxEffH2O (L : AtmEscLib) (bs : ℕ → AtmBody) (iBody : ℕ) : ℕ → AtmBody :=
  let b := bs iBody
  if b.iAtmXAbsEffH2OModel = .bol16 then
    updBody bs iBody {b with dAtmXAbsEffH2O := fdXUVEfficiencyBolmont2016 L b.dFXUV}
  else bs

/-- Lines 986-988: the energy-limited reference hydrogen flux. -/
def propsAuxFHRef (bs : ℕ → AtmBody) (iBody : ℕ) : ℕ → AtmBody :=
  let b := bs iBody
  updBody bs iBody { b with
    dFHRef := (b.dAtmXAbsEffH2O * b.dFXUV * b.dRadius)
      / (4 * BIGG * b.dMass * b.dKTide * ATOMMASS) }

/-- Line 991: surface gravity `g = G M / R²`. -/
def atmescGravity (b : AtmBody) : ℚ := (BIGG * b.dMass) / (b.dRadius * b.dRadius)

/-- Line 997: the binary diffusion coefficient
`BDIFF = 4.8e19 · T_flow^0.75`. -/
def atmescBDiff (L : AtmEscLib) (b : AtmBody) : ℚ := 4.8e19 * L.powQ b.dFlowTemp 0.75

/-- Lines 990-998: write the diffusion-limited hydrogen escape flux. -/
def propsAuxFHDiffLim (L : AtmEscLib) (bs : ℕ → AtmBody) (iBody : ℕ) : ℕ → AtmBody :=
  let b := bs iBody
  let g := atmescGravity b
  let XO := fdAtomicOxygenMixingRatio b.dSurfaceWaterMass b.dOxygenMass
  let BDIFF := atmescBDiff L b
  updBody bs iBody { b with
    dFHDiffLim := BDIFF * g * ATOMMASS * (QOH - 1)
      / (KBOLTZ * b.dFlowTemp * (1 + XO / (1 - XO))) }

/-- Lines 1001-1007: no water escape — clear the regime fields. -/
def regimeNoEscape (bs2 : ℕ → AtmBody) (iBody : ℕ) : ℕ → AtmBody :=
  let b2 := bs2 iBody
  updBody bs2 iBody { b2 with
    dOxygenEta := 0
    dCrossoverMass := 0
    bRunaway := false
    iWaterEscapeRegime := .regimeNone
    dMDotWater := 0 }

/-- Lines 1013-1053: the water-loss sub-model selection writing
`dOxygenEta` and `dCrossoverMass` on the (runaway) body. -/
def regimeModelSelect (XO g BDIFF : ℚ) (b3 : AtmBody) : AtmBody :=
  if b3.iWaterLossModel = .lb15 then
    let x := (KBOLTZ * b3.dFlowTemp * b3.dFHRef) / (10 * BDIFF * g * ATOMMASS)
    if x < 1 then
      { b3 with
        dOxygenEta := 0
        dCrossoverMass := ATOMMASS + 1.5 * KBOLTZ * b3.dFlowTemp * b3.dFHRef / (BDIFF * g) }
    else
      { b3 with
        dOxygenEta := (x - 1) / (x + 8)
        dCrossoverMass := 43 / 3 * ATOMMASS + KBOLTZ * b3.dFlowTemp * b3.dFHRef / (6 * BDIFF * g) }
  else if b3.iWaterLossModel = .lbexact ∨ b3.iWaterLossModel = .tian then
    let x := (QOH - 1) * (1 - XO) * (BDIFF * g * ATOMMASS) / (KBOLTZ * b3.dFlowTemp)
    if b3.dFHRef < x then
      { b3 with
        dCrossoverMass := ATOMMASS
          + (1 / (1 - XO)) * (KBOLTZ * b3.dFlowTemp * b3.dFHRef) / (BDIFF * g)
        dOxygenEta := 0 }
    else
      let num := 1 + (XO / (1 - XO)) * QOH * QOH
      let den := 1 + (XO / (1 - XO)) * QOH
      let mc := ATOMMASS * num / den
        + (KBOLTZ * b3.dFlowTemp * b3.dFHRef) / ((1 + XO * (QOH - 1)) * BDIFF * g)
      { b3 with
        dCrossoverMass := mc
        dOxygenEta := 2 * XO / (1 - XO) * ((mc / ATOMMASS - QOH) / (mc / ATOMMASS - 1)) }
  else b3

/-- Lines 1055-1066: regime tag and water mass-loss rate. -/
def regimeMDot (XO : ℚ) (b4 : AtmBody) : AtmBody :=
  if XO > 0.6 ∧ b4.iWaterLossModel = .lbexact then
    { b4 with
      iWaterEscapeRegime := .difflim
      dOxygenEta := 0
      dMDotWater := b4.dFHDiffLim
        * (4 * ATOMMASS * PI * b4.dRadius * b4.dRadius * b4.dXFrac * b4.dXFrac) }
  else
    { b4 with
      iWaterEscapeRegime := .elim
      dMDotWater := b4.dFHRef
        * (4 * ATOMMASS * PI * b4.dRadius * b4.dRadius * b4.dXFrac * b4.dXFrac) }

/-- Lines 1009-1067: water is escaping — set `bRunaway`, pick the sub-model
and the regime. -/
def regimeEscape (XO g BDIFF : ℚ) (bs2 : ℕ → AtmBody) (iBody : ℕ) : ℕ → AtmBody :=
  let b3 : AtmBody := {bs2 iBody with bRunaway := true}
  updBody bs2 iBody (regimeMDot XO (regimeModelSelect XO g BDIFF b3))

/-- Lines 990-1067: surface gravity, oxygen mixing ratio, diffusion-limited
flux, and the water-escape regime selection (including the `dRGDuration`
latch performed inside `fbDoesWaterEscape`). -/
def propsAuxEscapeRegime (L : AtmEscLib) (bs : ℕ → AtmBody) (iBody : ℕ) :
    ℕ → AtmBody :=
  let b := bs iBody
  let g := atmescGravity b
  let XO := fdAtomicOxygenMixingRatio b.dSurfaceWaterMass b.dOxygenMass
  let BDIFF := atmescBDiff L b
  let bs1 := propsAuxFHDiffLim L bs iBody
  let we := fbDoesWaterEscape L bs1 iBody
  if ¬ we.1 then regimeNoEscape we.2 iBody
  else regimeEscape XO g BDIFF we.2 iBody

/-- `void fnPropsAuxAtmEsc(BODY *body, EVOLVE *evolve, IO *io, UPDATE
*update, int iBody)` (atmesc.c lines 945-1069), the source blocks composed
in order. -/
def fnPropsAuxAtmEsc (L : AtmEscLib) (iVerbose : ℕ) (bs : ℕ → AtmBody)
    (iBody : ℕ) : ℕ → AtmBody :=
  propsAuxEscapeRegime L
    (propsAuxFHRef
      (propsAuxEffH2O L
        (propsAuxFXUV L
          (propsAuxKTide L iVerbose
            (propsAuxLehmer L
              (propsAuxAgeSync bs iBody) iBody) iBody) iBody) iBody) iBody) iBody

/-- The auxiliary-properties pass restricted to the AtmEsc hooks: the body
loop of `PropertiesAuxiliary` (evolve.c lines 39-47) calls
`fnPropsAuxAtmEsc` once for each body index running the module, in
ascending order. -/
def atmescAuxPass (L : AtmEscLib) (iVerbose : ℕ) (bs : ℕ → AtmBody)
    (bodies : List ℕ) : ℕ → AtmBody :=
  bodies.foldl (fun s i => fnPropsAuxAtmEsc L iVerbose s i) bs

/-!
## stellar.c — stellar evolution module (track lookup error handling)

A double that may be NaN is embedded as `Option ℚ` (`none` = NaN); a call
that may abort the process (`exit(EXIT_INT)`) is embedded as `Except Unit`.
The interpolation routine `fdBaraffe` lives in a translation unit outside
the embedded sources; its outcome (value and `iError` code) is an oracle
argument.
-/

/-- `iStellarModel` tags (`STELLAR_MODEL_*` macros); `otherModel` stands
for any other integer value of the C field. -/
inductive StellarModel
  | baraffe
  | proximacen
  | constModel
  | noneModel
  | otherModel
deriving DecidableEq

/-- `STELLAR_ERR_*` codes returned by `fdBaraffe`. -/
inductive StellarErr
  | errNone
  | errLinear
  | outOfBoundsLo
  | outOfBoundsHi
  | errIsNaN
  | errFile
  | badOrder
deriving DecidableEq

/-- The star-body fields read or written by `fdLuminosity`. -/
structure StarBody where
  iStellarModel : StellarModel := .constModel
  dLuminosity : ℚ := 1
  dAge : ℚ := 0
  dMass : ℚ := 1

/-- `double fdLuminosityFunctionBaraffe(double dAge, double dMass)`
(stellar.c lines 1455-1473), over the oracle outcome of
`fdBaraffe(STELLAR_L, dAge, dMass, 3, &iError)`:
`NONE`/`LINEAR` return the value, `OUTOFBOUNDS_HI`/`ISNAN` return `NAN`
(`.ok none`), every other code prints a message and exits (`.error`). -/
def fdLuminosityFunctionBaraffe (fdBaraffeL : ℚ → ℚ → ℚ × StellarErr)
    (dAge dMass : ℚ) : Except Unit (Option ℚ) :=
  let r := fdBaraffeL dAge dMass
  if r.2 = .errNone ∨ r.2 = .errLinear then .ok (some r.1)
  else if r.2 = .outOfBoundsHi ∨ r.2 = .errIsNaN then .ok none
  else .error ()

/-- `double fdLuminosity(BODY *body, SYSTEM *system, int *iaBody)`
(stellar.c lines 1114-1129).  `proximaCenL` is the oracle for the external
`fdLuminosityFunctionProximaCen` (`none` = NaN).  Returns the luminosity
together with the body (whose `iStellarModel` may have been latched to
`CONST`), or propagates the abort. -/
def fdLuminosity (fdBaraffeL : ℚ → ℚ → ℚ × StellarErr)
    (proximaCenL : ℚ → ℚ → Option ℚ) (b : StarBody) :
    Except Unit (ℚ × StarBody) :=
  match b.iStellarModel with
  | .baraffe =>
    match fdLuminosityFunctionBaraffe fdBaraffeL b.dAge b.dMass with
    | .error e => .error e
    | .ok (some foo) => .ok (foo, b)
    | .ok none =>
      let b1 : StarBody := {b with iStellarModel := .constModel}
      .ok (b1.dLuminosity, b1)
  | .proximacen =>
    match proximaCenL b.dAge b.dMass with
    | some foo => .ok (foo, b)
    | none =>
      let b1 : StarBody := {b with iStellarModel := .constModel}
      .ok (b1.dLuminosity, b1)
  | .noneModel => .ok (b.dLuminosity, b)
  | .constModel => .ok (b.dLuminosity, b)
  | .otherModel => .ok (0, b)

/-!
## Concrete fixtures used by witnesses and counterexamples
-/

/-- A one-variable RK4 configuration: a single RATE-kind (`iaType = 1`)
variable with one contributor returning the constant 1, fixed timestep 6. -/
def rk4Fix : RK4In 1 where
  C := { bVarDt := false, dTimeStep := 6, iDir := 1 }
  M := fun _ => { iNumEqns := 1, iaType := fun _ => 1, fnUpdate := fun _ _ => 1 }
  x := fun _ => 0

/-- A single VALUE-kind (`iaType = 0`) variable whose one contributor
returns the constant 2 (a tabulated value differing from the current
value 1). -/
def c6Var : UpdateVar 1 where
  iNumEqns := 1
  iaType := fun _ => 0
  fnUpdate := fun _ _ => 2

/-- Star fixture for the Ktide counterexample: `dMass = 16`. -/
def ktideStar : AtmBody := { dMass := 16 }

/-- Planet fixture for the Ktide counterexample: mass ratio
`dMass/(3 M_star) = 1` so `ξ = dSemi/(dRadius·dXFrac) = 4 > 1`. -/
def ktidePlanet : AtmBody := { dMass := 48, dSemi := 4, dRadius := 1, dXFrac := 1 }

/-- Two-body array for the Ktide counterexample. -/
def ktideBodies : ℕ → AtmBody := fun j => if j = 0 then ktideStar else ktidePlanet

/-!
## Helper lemmas
-/

theorem updBody_apply (bs : ℕ → AtmBody) (i : ℕ) (b : AtmBody) (j : ℕ) :
    updBody bs i b j = if j = i then b else bs j :=
  Function.update_apply bs i b j

theorem AssignDt_eq_min (dMin dNextOutput dEta : ℚ) :
    AssignDt dMin dNextOutput dEta = min (dEta * dMin) dNextOutput := by
  unfold AssignDt
  by_cases h : dNextOutput < dEta * dMin
  · rw [if_pos h, min_eq_right h.le]
  · rw [if_neg h, min_eq_left (not_lt.mp h)]

theorem updBody_same (bs : ℕ → AtmBody) (i : ℕ) (b : AtmBody) :
    updBody bs i b i = b := by
  unfold updBody; exact Function.update_same i b bs

theorem updBody_other (bs : ℕ → AtmBody) (i : ℕ) (b : AtmBody) (j : ℕ)
    (h : j ≠ i) : updBody bs i b j = bs j := by
  unfold updBody; exact Function.update_noteq h b bs

/-!
## Claims
-/

/-- Claim C2: with variable timestepping the selected step obeys both
bounds, `dt ≤ η · min τ` and `dt ≤ t_next_out − t_now`, because
`AssignDt(dMin, dNextOutput, dEta)` returns `min(dEta·dMin, dNextOutput)`
for all non-negative inputs (and in `RungeKutta4Step` the step is exactly
that value of `AssignDt`). -/
theorem claim2_assignDt_min (dMin dNextOutput dEta : ℚ)
    (h1 : 0 ≤ dMin) (h2 : 0 ≤ dNextOutput) (h3 : 0 ≤ dEta) :
    AssignDt dMin dNextOutput dEta = min (dEta * dMin) dNextOutput ∧
    AssignDt dMin dNextOutput dEta ≤ dEta * dMin ∧
    AssignDt dMin dNextOutput dEta ≤ dNextOutput ∧
    ∀ (n : ℕ) (I : RK4In n), I.C.bVarDt = true →
      (RungeKutta4Step I).dDt
          = AssignDt (rk4DMin I) (fdNextOutput I.C.dTime I.C.dOutputTime - I.C.dTime) I.C.dEta ∧
      (RungeKutta4Step I).dDt ≤ I.C.dEta * rk4DMin I ∧
      (RungeKutta4Step I).dDt ≤ fdNextOutput I.C.dTime I.C.dOutputTime - I.C.dTime := by
  refine ⟨AssignDt_eq_min _ _ _, ?_, ?_, ?_⟩
  · rw [AssignDt_eq_min]; exact min_le_left _ _
  · rw [AssignDt_eq_min]; exact min_le_right _ _
  · intro n I hv
    have hd : (RungeKutta4Step I).dDt
        = AssignDt (rk4DMin I) (fdNextOutput I.C.dTime I.C.dOutputTime - I.C.dTime) I.C.dEta := by
      simp [RungeKutta4Step, rk4Dt, hv]
    refine ⟨hd, ?_, ?_⟩
    · rw [hd, AssignDt_eq_min]; exact min_le_left _ _
    · rw [hd, AssignDt_eq_min]; exact min_le_right _ _

/-- Claim C2 witness at `dMin = 2`, `dNextOutput = 3`, `dEta = 1/2`. -/
theorem claim2_witness :
    AssignDt 2 3 (1 / 2) = min ((1 / 2) * 2) 3 ∧
    AssignDt 2 3 (1 / 2) ≤ (1 / 2) * 2 ∧
    AssignDt 2 3 (1 / 2) ≤ 3 ∧
    ∀ (n : ℕ) (I : RK4In n), I.C.bVarDt = true →
      (RungeKutta4Step I).dDt
          = AssignDt (rk4DMin I) (fdNextOutput I.C.dTime I.C.dOutputTime - I.C.dTime) I.C.dEta ∧
      (RungeKutta4Step I).dDt ≤ I.C.dEta * rk4DMin I ∧
      (RungeKutta4Step I).dDt ≤ fdNextOutput I.C.dTime I.C.dOutputTime - I.C.dTime :=
  claim2_assignDt_min 2 3 (1 / 2) (by norm_num) (by norm_num) (by norm_num)

/-- Claim C5 counterexample: on a body with `dEnvelopeMass = 0` the
derivative `fdDEnvelopeMassDt` returns `dTINY = 1/DBL_MAX`, which is not
the `0` the claim states. -/
theorem claim5_counterexample :
    ((fun _ : ℕ => ({} : AtmBody)) 0).dEnvelopeMass ≤ 0 ∧
    fdDEnvelopeMassDt {} (fun _ : ℕ => ({} : AtmBody)) 0 = dTINY ∧
    dTINY ≠ 0 := by
  refine ⟨le_refl 0, ?_, ne_of_gt dTINY_pos⟩
  simp [fdDEnvelopeMassDt]

/-- Claim C5 (amended): whenever the envelope mass is `≤ 0` or the age
exceeds `dJeansTime`, `fdDEnvelopeMassDt` returns the positive sentinel
`dTINY = 1/DBL_MAX` (not exactly 0). -/
theorem claim5_envelope_sentinel (L : AtmEscLib) (bs : ℕ → AtmBody) (i : ℕ)
    (h : (bs i).dEnvelopeMass ≤ 0 ∨ (bs i).dAge > (bs i).dJeansTime) :
    fdDEnvelopeMassDt L bs i = dTINY ∧ 0 < dTINY := by
  refine ⟨?_, dTINY_pos⟩
  unfold fdDEnvelopeMassDt
  simp only [if_pos h]

/-- Claim C5 witness: a body with zero envelope. -/
theorem claim5_witness :
    fdDEnvelopeMassDt {} (fun _ : ℕ => ({} : AtmBody)) 0 = dTINY ∧ 0 < dTINY :=
  claim5_envelope_sentinel {} (fun _ : ℕ => ({} : AtmBody)) 0 (Or.inl (le_refl 0))

/-- Claim C9: `fdAtomicOxygenMixingRatio` returns
`1/(1 + 1/(0.5 + N_O2/N_H2O))` when `N_H2O > 0`, `1` when `N_H2O = 0 <
N_O2`, `0` when both vanish, and for all non-negative inputs the result
lies in `[0, 1]`. -/
theorem claim9_mixing_ratio (w m : ℚ) (hw : 0 ≤ w) (hm : 0 ≤ m) :
    (w / (18 * ATOMMASS) > 0 →
      fdAtomicOxygenMixingRatio w m
        = 1 / (1 + 1 / (0.5 + (m / (32 * ATOMMASS)) / (w / (18 * ATOMMASS))))) ∧
    (w / (18 * ATOMMASS) = 0 → m / (32 * ATOMMASS) > 0 →
      fdAtomicOxygenMixingRatio w m = 1) ∧
    (w / (18 * ATOMMASS) = 0 → m / (32 * ATOMMASS) = 0 →
      fdAtomicOxygenMixingRatio w m = 0) ∧
    0 ≤ fdAtomicOxygenMixingRatio w m ∧ fdAtomicOxygenMixingRatio w m ≤ 1 := by
  have hA : (0 : ℚ) < ATOMMASS := ATOMMASS_pos
  have hNO2 : 0 ≤ m / (32 * ATOMMASS) := by positivity
  unfold fdAtomicOxygenMixingRatio
  by_cases h : w / (18 * ATOMMASS) > 0
  · have hr : 0 ≤ (m / (32 * ATOMMASS)) / (w / (18 * ATOMMASS)) := by positivity
    have h05 : (0 : ℚ) < 0.5 + (m / (32 * ATOMMASS)) / (w / (18 * ATOMMASS)) := by
      norm_num; linarith
    have hinv : 0 < 1 / (0.5 + (m / (32 * ATOMMASS)) / (w / (18 * ATOMMASS))) :=
      by positivity
    have hden : (1 : ℚ)
        ≤ 1 + 1 / (0.5 + (m / (32 * ATOMMASS)) / (w / (18 * ATOMMASS))) := by linarith
    refine ⟨fun _ => by rw [if_pos h], fun h0 => absurd h0 (ne_of_gt h),
      fun h0 => absurd h0 (ne_of_gt h), ?_, ?_⟩
    · rw [if_pos h]; positivity
    · rw [if_pos h]
      exact (div_le_one (by linarith)).mpr hden
  · have h0 : w / (18 * ATOMMASS) = 0 := le_antisymm (not_lt.mp h) (by positivity)
    by_cases hm0 : m / (32 * ATOMMASS) > 0
    · refine ⟨fun hc => absurd hc h, fun _ _ => by rw [if_neg h, if_pos hm0],
        fun _ hc => absurd hc (ne_of_gt hm0), ?_, ?_⟩
      · rw [if_neg h, if_pos hm0]; norm_num
      · rw [if_neg h, if_pos hm0]
    · refine ⟨fun hc => absurd hc h, fun _ hc => absurd hc hm0,
        fun _ _ => by rw [if_neg h, if_neg hm0], ?_, ?_⟩
      · rw [if_neg h, if_neg hm0]
      · rw [if_neg h, if_neg hm0]; norm_num

/-- Claim C9 witness at one Earth ocean of water and no oxygen. -/
theorem claim9_witness :
    0 ≤ fdAtomicOxygenMixingRatio (18 * ATOMMASS) 0 ∧
    fdAtomicOxygenMixingRatio (18 * ATOMMASS) 0 ≤ 1 :=
  ⟨(claim9_mixing_ratio (18 * ATOMMASS) 0 (by norm_num [ATOMMASS]) le_rfl).2.2.2.1,
   (claim9_mixing_ratio (18 * ATOMMASS) 0 (by norm_num [ATOMMASS]) le_rfl).2.2.2.2⟩

/-- Claim C8: while water escapes (`bRunaway` and positive surface water),
the oxygen production is only routed: with an instant O₂ sink the
atmospheric derivative is 0 and the mantle derivative equals what the
atmospheric derivative would be with the sink cleared; without the sink the
mantle derivative is 0. -/
theorem claim8_oxygen_routing (L : AtmEscLib) (bs : ℕ → AtmBody) (i : ℕ)
    (hR : (bs i).bRunaway = true) (hW : (bs i).dSurfaceWaterMass > 0) :
    ((bs i).bInstantO2Sink = true →
      fdDOxygenMassDt L bs i = 0 ∧
      fdDOxygenMantleMassDt L bs i
        = fdDOxygenMassDt L (updBody bs i {bs i with bInstantO2Sink := false}) i) ∧
    ((bs i).bInstantO2Sink = false → fdDOxygenMantleMassDt L bs i = 0) := by
  constructor
  · intro hS
    constructor
    · unfold fdDOxygenMassDt
      simp [hS]
    · unfold fdDOxygenMantleMassDt fdDOxygenMassDt
      rw [updBody_same]
      simp [hR, hW, hS]
  · intro hS
    unfold fdDOxygenMantleMassDt
    simp [hS]

/-- Claim C8 witness: a runaway body with water and the instant sink on. -/
theorem claim8_witness :
    (({ bRunaway := true, dSurfaceWaterMass := 1, bInstantO2Sink := true } : AtmBody).bInstantO2Sink = true →
      fdDOxygenMassDt {}
        (fun _ : ℕ => ({ bRunaway := true, dSurfaceWaterMass := 1, bInstantO2Sink := true } : AtmBody)) 0 = 0 ∧
      fdDOxygenMantleMassDt {}
        (fun _ : ℕ => ({ bRunaway := true, dSurfaceWaterMass := 1, bInstantO2Sink := true } : AtmBody)) 0
        = fdDOxygenMassDt {}
            (updBody (fun _ : ℕ => ({ bRunaway := true, dSurfaceWaterMass := 1, bInstantO2Sink := true } : AtmBody)) 0
              { ({ bRunaway := true, dSurfaceWaterMass := 1, bInstantO2Sink := true } : AtmBody) with
                  bInstantO2Sink := false }) 0) ∧
    (({ bRunaway := true, dSurfaceWaterMass := 1, bInstantO2Sink := true } : AtmBody).bInstantO2Sink = false →
      fdDOxygenMantleMassDt {}
        (fun _ : ℕ => ({ bRunaway := true, dSurfaceWaterMass := 1, bInstantO2Sink := true } : AtmBody)) 0 = 0) :=
  claim8_oxygen_routing {}
    (fun _ : ℕ => ({ bRunaway := true, dSurfaceWaterMass := 1, bInstantO2Sink := true } : AtmBody))
    0 rfl (by norm_num)

/-- Claim C4: `fbDoesWaterEscape` returns 1 exactly when the envelope is
gone, the instellation is at least the Kopparapu-14 runaway-greenhouse
limit, surface water remains, and the age does not exceed `dJeansTime`. -/
theorem claim4_water_escape_iff (L : AtmEscLib) (bs : ℕ → AtmBody) (i : ℕ) :
    (fbDoesWaterEscape L bs i).1 = true ↔
      ((bs i).dEnvelopeMass ≤ 0 ∧ fdHZRG14 L bs i ≤ L.fdInstellation bs i ∧
        (bs i).dSurfaceWaterMass > 0 ∧ (bs i).dAge ≤ (bs i).dJeansTime) := by
  constructor
  · intro h
    unfold fbDoesWaterEscape at h
    by_cases h1 : (bs i).dEnvelopeMass > 0
    · rw [if_pos h1] at h; split_ifs at h
    · rw [if_neg h1] at h
      by_cases h2 : L.fdInstellation bs i < fdHZRG14 L bs i
      · rw [if_pos h2] at h; split_ifs at h
      · rw [if_neg h2] at h
        by_cases h3 : (bs i).dSurfaceWaterMass ≤ 0
        · rw [if_pos h3] at h; simp at h
        · rw [if_neg h3] at h
          by_cases h4 : (bs i).dAge > (bs i).dJeansTime
          · rw [if_pos h4] at h; simp at h
          · exact ⟨not_lt.mp h1, not_lt.mp h2, not_le.mp h3, not_lt.mp h4⟩
  · rintro ⟨c1, c2, c3, c4⟩
    unfold fbDoesWaterEscape
    rw [if_neg (not_lt.mpr c1), if_neg (not_lt.mpr c2), if_neg (not_le.mpr c3),
      if_neg (not_lt.mpr c4)]

/-- Claim C7 counterexample: an `ISNAN` lookup outcome on a Baraffe-model
star does NOT abort — `fdLuminosity` latches the model to `CONST` and
returns the stored luminosity. -/
theorem claim7_counterexample :
    fdLuminosity (fun _ _ => ((0 : ℚ), StellarErr.errIsNaN)) (fun _ _ => none)
        { iStellarModel := .baraffe, dLuminosity := 5 }
      = .ok (5, { iStellarModel := .constModel, dLuminosity := 5 }) ∧
    fdLuminosity (fun _ _ => ((0 : ℚ), StellarErr.errIsNaN)) (fun _ _ => none)
        { iStellarModel := .baraffe, dLuminosity := 5 }
      ≠ .error () := by
  constructor
  · rfl
  · intro h
    simp [fdLuminosity, fdLuminosityFunctionBaraffe] at h

/-- Claim C7 (amended): for a Baraffe-model star, an out-of-bounds-high OR
NaN lookup outcome latches the model to `CONST` and returns the stored
luminosity (no abort); only out-of-bounds-low (and the file/bad-order
errors) abort; a latched star keeps returning its stored value. -/
theorem claim7_lookup_dispatch (dVal : ℚ) (e : StellarErr)
    (prox : ℚ → ℚ → Option ℚ) (b : StarBody)
    (hb : b.iStellarModel = .baraffe) :
    (e = .outOfBoundsHi ∨ e = .errIsNaN →
      fdLuminosity (fun _ _ => (dVal, e)) prox b
        = .ok (b.dLuminosity, {b with iStellarModel := .constModel})) ∧
    (e = .outOfBoundsLo ∨ e = .errFile ∨ e = .badOrder →
      fdLuminosity (fun _ _ => (dVal, e)) prox b = .error ()) ∧
    (e = .errNone ∨ e = .errLinear →
      fdLuminosity (fun _ _ => (dVal, e)) prox b = .ok (dVal, b)) ∧
    (∀ b' : StarBody, b'.iStellarModel = .constModel →
      fdLuminosity (fun _ _ => (dVal, e)) prox b' = .ok (b'.dLuminosity, b')) := by
  obtain ⟨mdl, lum, age, mass⟩ := b
  simp only [] at hb
  subst hb
  refine ⟨?_, ?_, ?_, ?_⟩
  · rintro (rfl | rfl) <;> rfl
  · rintro (rfl | rfl | rfl) <;> rfl
  · rintro (rfl | rfl) <;> rfl
  · intro b' hb'
    obtain ⟨mdl', lum', age', mass'⟩ := b'
    simp only [] at hb'
    subst hb'
    rfl

/-- Claim C7 witness: out-of-bounds-high on a concrete Baraffe star. -/
theorem claim7_witness :
    fdLuminosity (fun _ _ => ((7 : ℚ), StellarErr.outOfBoundsHi)) (fun _ _ => none)
        { iStellarModel := .baraffe, dLuminosity := 5 }
      = .ok (5, { ({ iStellarModel := .baraffe, dLuminosity := 5 } : StarBody) with
            iStellarModel := .constModel }) :=
  (claim7_lookup_dispatch 7 .outOfBoundsHi (fun _ _ => none)
      { iStellarModel := .baraffe, dLuminosity := 5 } rfl).1 (Or.inl rfl)

/-- Claim C3: in `RungeKutta4Step`, RATE/POLAR/DERIVED/FLOOR/NBODY-kind
variables (`iaType[iVar][0] ∈ {1,2,5,9,7}`) advance by
`dt·(f0 + 2f1 + 2f2 + f3)/6` where `fk` are the per-variable contributor
sums of the four sub-evaluations, while VALUE/EXPLICIT-kind variables
(`iaType[iVar][0] ∈ {0,10}`) are assigned `f0` and their `daDeriv[3]` cell
is left untouched (no fourth accumulation); for VALUE kind `f0` is the
contributor sum evaluated at the step-start state. -/
theorem claim3_rk4_kind_rules {n : ℕ} (I : RK4In n) (v : Fin n) :
    (((I.M v).iaType 0 = 1 ∨ (I.M v).iaType 0 = 2 ∨ (I.M v).iaType 0 = 5 ∨
        (I.M v).iaType 0 = 9 ∨ (I.M v).iaType 0 = 7) →
      (RungeKutta4Step I).xOut v
        = I.x v + (RungeKutta4Step I).dDt *
            (((RungeKutta4Step I).d0 v + 2 * (RungeKutta4Step I).d1 v
              + 2 * (RungeKutta4Step I).d2 v + (RungeKutta4Step I).d3 v) / 6)) ∧
    (((I.M v).iaType 0 = 0 ∨ (I.M v).iaType 0 = 10) →
      (RungeKutta4Step I).xOut v = (RungeKutta4Step I).d0 v ∧
      (RungeKutta4Step I).d3 v = I.d3in v) ∧
    ((I.M v).iaType 0 = 0 →
      (RungeKutta4Step I).d0 v
        = ∑ k in Finset.range (I.M v).iNumEqns, I.C.iDir * (I.M v).fnUpdate k I.x) := by
  refine ⟨?_, ?_, ?_⟩
  · intro ht
    have hnv : ¬ isValueType ((I.M v).iaType 0) := by
      rcases ht with h | h | h | h | h <;> simp [isValueType, h]
    show rk4XOut I v = I.x v + rk4Dt I *
      ((rk4D0 I v + 2 * rk4D1 I v + 2 * rk4D2 I v + rk4D3 I v) / 6)
    unfold rk4XOut rk4DerivUpd
    rw [if_neg hnv]
    ring
  · intro ht
    have hv : isValueType ((I.M v).iaType 0) := by
      rcases ht with h | h
      · exact Or.inl h
      · exact Or.inr (Or.inr h)
    constructor
    · show rk4XOut I v = rk4D0 I v
      unfold rk4XOut
      rw [if_pos hv]
    · show rk4D3 I v = I.d3in v
      unfold rk4D3
      rw [if_pos hv]
  · intro ht
    show rk4D0 I v = _
    unfold rk4D0
    refine Finset.sum_congr rfl fun k hk => ?_
    congr 1
    unfold rk4Scr0 fdGetTimeStep scrAfterTimeStep
    simp [Finset.mem_range.mp hk, ht]

/-- Claim C3 witness: the RATE branch of the rule at the one-variable
fixture. -/
theorem claim3_witness :
    (RungeKutta4Step rk4Fix).xOut 0
      = rk4Fix.x 0 + (RungeKutta4Step rk4Fix).dDt *
          (((RungeKutta4Step rk4Fix).d0 0 + 2 * (RungeKutta4Step rk4Fix).d1 0
            + 2 * (RungeKutta4Step rk4Fix).d2 0 + (RungeKutta4Step rk4Fix).d3 0) / 6) :=
  (claim3_rk4_kind_rules rk4Fix 0).1 (Or.inl rfl)

/-- Claim C6 counterexample: a matrix whose only variable is VALUE-kind
(`iaType = 0`, current value 1, contributor value 2, previous timestep 1)
makes `fdGetTimeStep` return that variable's characteristic time `1`
instead of the untouched `dHUGE` — so a VALUE-kind variable does determine
the minimum timescale. -/
theorem value_var_sets_dmin (e : (Fin 1 → ℚ) → ℚ) (x0 : ℚ)
    (O : CMath) (C : EvolveCtl) (scr : Fin 1 → ℕ → ℚ)
    (hF : C.bFirstStep = false)
    (hNe : x0 ≠ e (fun _ => x0))
    (hLt : |x0 / ((x0 - e (fun _ => x0)) / C.dTimeStep)| < dHUGE) :
    (fdGetTimeStep O C
        (fun _ => { iNumEqns := 1, iaType := fun _ => 0, fnUpdate := fun _ => e })
        (fun _ => x0) scr).1
      = |x0 / ((x0 - e (fun _ => x0)) / C.dTimeStep)| := by
  have hfin : List.finRange 1 = [0] := rfl
  unfold fdGetTimeStep
  rw [hfin]
  simp only [List.foldl_cons, List.foldl_nil]
  unfold varTimescaleStep derivProcSum scrAfterTimeStep
  simp [hF, hNe, hLt]

/-- Claim C6 counterexample: a matrix whose only variable is VALUE-kind
(`iaType = 0`, current value 1, contributor value 2, previous timestep 1)
makes `fdGetTimeStep` return that variable's characteristic time `1`
instead of the untouched `dHUGE` — so a VALUE-kind variable does determine
the minimum timescale. -/
theorem claim6_counterexample :
    (fdGetTimeStep {} { bFirstStep := false, dTimeStep := 1 }
        (fun _ => c6Var) (fun _ => 1) (fun _ _ => 0)).1 = 1 ∧
    (1 : ℚ) ≠ dHUGE ∧ c6Var.iaType 0 = 0 := by
  refine ⟨?_, by norm_num [dHUGE], rfl⟩
  have h := value_var_sets_dmin (fun _ => 2) 1 {} { bFirstStep := false, dTimeStep := 1 }
    (fun _ _ => 0) rfl (by norm_num) (by norm_num [dHUGE])
  calc (fdGetTimeStep {} { bFirstStep := false, dTimeStep := 1 }
        (fun _ => c6Var) (fun _ => 1) (fun _ _ => 0)).1
      = |(1 : ℚ) / ((1 - 2) / 1)| := h
    _ = 1 := by norm_num

/-- Claim C6 (amended): VALUE-kind variables are not ignored by the
timestep selector: off the first step, a single VALUE-kind variable with
current value `x0` and contributor sum `e ≠ x0` makes `fdGetTimeStep`
return `|x0 / ((x0 − e)/Δt_prev)|` whenever that candidate beats `dHUGE`;
only DERIVED-kind (`iaType = 5`) variables are excluded from selection. -/
theorem claim6_value_kind_participates (e : (Fin 1 → ℚ) → ℚ) (x0 : ℚ)
    (O : CMath) (C : EvolveCtl) (scr : Fin 1 → ℕ → ℚ)
    (hF : C.bFirstStep = false)
    (hNe : x0 ≠ e (fun _ => x0))
    (hLt : |x0 / ((x0 - e (fun _ => x0)) / C.dTimeStep)| < dHUGE) :
    (fdGetTimeStep O C
        (fun _ => { iNumEqns := 1, iaType := fun _ => 0, fnUpdate := fun _ => e })
        (fun _ => x0) scr).1
      = |x0 / ((x0 - e (fun _ => x0)) / C.dTimeStep)| :=
  value_var_sets_dmin e x0 O C scr hF hNe hLt

/-- Claim C6 witness for the amended statement, at `x0 = 1`, contributor 2,
previous timestep 1. -/
theorem claim6_witness :
    (fdGetTimeStep {} { bFirstStep := false, dTimeStep := 1 }
        (fun _ => c6Var) (fun _ => 1) (fun _ _ => 0)).1
      = |(1 : ℚ) / ((1 - 2) / 1)| :=
  claim6_value_kind_participates (fun _ => 2) 1 {} { bFirstStep := false, dTimeStep := 1 }
    (fun _ _ => 0) rfl (by norm_num) (by norm_num [dHUGE])

/-!
### Field-preservation lemmas for the aux-pass blocks
-/

theorem propsAuxAgeSync_dAge (bs : ℕ → AtmBody) (i j : ℕ) :
    ((propsAuxAgeSync bs i) j).dAge = if j = i then (bs 0).dAge else (bs j).dAge := by
  unfold propsAuxAgeSync
  rcases eq_or_ne j i with rfl | hj
  · simp [updBody_same]
  · simp [updBody_other _ _ _ _ hj, hj]

theorem propsAuxAgeSync_fields (bs : ℕ → AtmBody) (i j : ℕ) :
    ((propsAuxAgeSync bs i) j).dMass = (bs j).dMass ∧
    ((propsAuxAgeSync bs i) j).dSemi = (bs j).dSemi ∧
    ((propsAuxAgeSync bs i) j).dRadius = (bs j).dRadius ∧
    ((propsAuxAgeSync bs i) j).dXFrac = (bs j).dXFrac ∧
    ((propsAuxAgeSync bs i) j).bBinary = (bs j).bBinary ∧
    ((propsAuxAgeSync bs i) j).iBodyType = (bs j).iBodyType ∧
    ((propsAuxAgeSync bs i) j).bRocheMessage = (bs j).bRocheMessage := by
  unfold propsAuxAgeSync
  rcases eq_or_ne j i with rfl | hj
  · simp [updBody_same]
  · simp [updBody_other _ _ _ _ hj]

theorem propsAuxLehmer_fields (L : AtmEscLib) (bs : ℕ → AtmBody) (i j : ℕ) :
    ((propsAuxLehmer L bs i) j).dAge = (bs j).dAge ∧
    ((propsAuxLehmer L bs i) j).dMass = (bs j).dMass ∧
    ((propsAuxLehmer L bs i) j).dSemi = (bs j).dSemi ∧
    ((propsAuxLehmer L bs i) j).dRadius = (bs j).dRadius ∧
    ((propsAuxLehmer L bs i) j).dXFrac = (bs j).dXFrac ∧
    ((propsAuxLehmer L bs i) j).bBinary = (bs j).bBinary ∧
    ((propsAuxLehmer L bs i) j).iBodyType = (bs j).iBodyType ∧
    ((propsAuxLehmer L bs i) j).bRocheMessage = (bs j).bRocheMessage := by
  unfold propsAuxLehmer
  split_ifs with h
  · rcases eq_or_ne j i with rfl | hj
    · simp [updBody_same]
    · simp [updBody_other _ _ _ _ hj]
  · simp

theorem propsAuxKTide_dAge (L : AtmEscLib) (v : ℕ) (bs : ℕ → AtmBody) (i j : ℕ) :
    ((propsAuxKTide L v bs i) j).dAge = (bs j).dAge := by
  unfold propsAuxKTide
  rcases eq_or_ne j i with rfl | hj
  · split_ifs <;> simp [updBody_same]
  · split_ifs <;> simp [updBody_other _ _ _ _ hj]

theorem propsAuxFXUV_keep (L : AtmEscLib) (bs : ℕ → AtmBody) (i j : ℕ) :
    ((propsAuxFXUV L bs i) j).dAge = (bs j).dAge ∧
    ((propsAuxFXUV L bs i) j).dKTide = (bs j).dKTide ∧
    ((propsAuxFXUV L bs i) j).bRocheMessage = (bs j).bRocheMessage := by
  unfold propsAuxFXUV
  rcases eq_or_ne j i with rfl | hj
  · split_ifs <;> simp [updBody_same]
  · split_ifs <;> simp [updBody_other _ _ _ _ hj]

theorem propsAuxEffH2O_keep (L : AtmEscLib) (bs : ℕ → AtmBody) (i j : ℕ) :
    ((propsAuxEffH2O L bs i) j).dAge = (bs j).dAge ∧
    ((propsAuxEffH2O L bs i) j).dKTide = (bs j).dKTide ∧
    ((propsAuxEffH2O L bs i) j).bRocheMessage = (bs j).bRocheMessage := by
  unfold propsAuxEffH2O
  rcases eq_or_ne j i with rfl | hj
  · split_ifs <;> simp [updBody_same]
  · split_ifs <;> simp [updBody_other _ _ _ _ hj]

theorem propsAuxFHRef_keep (bs : ℕ → AtmBody) (i j : ℕ) :
    ((propsAuxFHRef bs i) j).dAge = (bs j).dAge ∧
    ((propsAuxFHRef bs i) j).dKTide = (bs j).dKTide ∧
    ((propsAuxFHRef bs i) j).bRocheMessage = (bs j).bRocheMessage := by
  unfold propsAuxFHRef
  rcases eq_or_ne j i with rfl | hj
  · simp [updBody_same]
  · simp [updBody_other _ _ _ _ hj]

theorem fbDoesWaterEscape_snd (L : AtmEscLib) (bs : ℕ → AtmBody) (i : ℕ) :
    (fbDoesWaterEscape L bs i).2 = bs ∨
    (fbDoesWaterEscape L bs i).2
      = updBody bs i {bs i with dRGDuration := (bs i).dAge} := by
  unfold fbDoesWaterEscape
  by_cases h1 : (bs i).dEnvelopeMass > 0
  · rw [if_pos h1]
    by_cases h2 : (bs i).dRGDuration = 0 ∧ L.fdInstellation bs i < fdHZRG14 L bs i
    · rw [if_pos h2]; right; rfl
    · rw [if_neg h2]; left; rfl
  · rw [if_neg h1]
    by_cases h2 : L.fdInstellation bs i < fdHZRG14 L bs i
    · rw [if_pos h2]
      by_cases h3 : (bs i).dRGDuration = 0
      · rw [if_pos h3]; right; rfl
      · rw [if_neg h3]; left; rfl
    · rw [if_neg h2]
      by_cases h4 : (bs i).dSurfaceWaterMass ≤ 0
      · rw [if_pos h4]; left; rfl
      · rw [if_neg h4]
        by_cases h5 : (bs i).dAge > (bs i).dJeansTime
        · rw [if_pos h5]; left; rfl
        · rw [if_neg h5]; left; rfl

theorem fbDoesWaterEscape_keep (L : AtmEscLib) (bs : ℕ → AtmBody) (i j : ℕ) :
    (((fbDoesWaterEscape L bs i).2) j).dAge = (bs j).dAge ∧
    (((fbDoesWaterEscape L bs i).2) j).dKTide = (bs j).dKTide ∧
    (((fbDoesWaterEscape L bs i).2) j).bRocheMessage = (bs j).bRocheMessage := by
  rcases fbDoesWaterEscape_snd L bs i with h | h <;> rw [h]
  · exact ⟨rfl, rfl, rfl⟩
  · rcases eq_or_ne j i with rfl | hj
    · simp [updBody_same]
    · simp [updBody_other _ _ _ _ hj]

theorem fbDWE_dAge (L : AtmEscLib) (bs : ℕ → AtmBody) (i j : ℕ) :
    (((fbDoesWaterEscape L bs i).2) j).dAge = (bs j).dAge :=
  (fbDoesWaterEscape_keep L bs i j).1

theorem fbDWE_dKTide (L : AtmEscLib) (bs : ℕ → AtmBody) (i j : ℕ) :
    (((fbDoesWaterEscape L bs i).2) j).dKTide = (bs j).dKTide :=
  (fbDoesWaterEscape_keep L bs i j).2.1

theorem fbDWE_bRocheMessage (L : AtmEscLib) (bs : ℕ → AtmBody) (i j : ℕ) :
    (((fbDoesWaterEscape L bs i).2) j).bRocheMessage = (bs j).bRocheMessage :=
  (fbDoesWaterEscape_keep L bs i j).2.2

theorem propsAuxFHDiffLim_keep (L : AtmEscLib) (bs : ℕ → AtmBody) (i j : ℕ) :
    ((propsAuxFHDiffLim L bs i) j).dAge = (bs j).dAge ∧
    ((propsAuxFHDiffLim L bs i) j).dKTide = (bs j).dKTide ∧
    ((propsAuxFHDiffLim L bs i) j).bRocheMessage = (bs j).bRocheMessage := by
  unfold propsAuxFHDiffLim
  rcases eq_or_ne j i with rfl | hj
  · simp [updBody_same]
  · simp [updBody_other _ _ _ _ hj]

theorem regimeNoEscape_keep (bs2 : ℕ → AtmBody) (i j : ℕ) :
    ((regimeNoEscape bs2 i) j).dAge = (bs2 j).dAge ∧
    ((regimeNoEscape bs2 i) j).dKTide = (bs2 j).dKTide ∧
    ((regimeNoEscape bs2 i) j).bRocheMessage = (bs2 j).bRocheMessage := by
  unfold regimeNoEscape
  rcases eq_or_ne j i with rfl | hj
  · simp [updBody_same]
  · simp [updBody_other _ _ _ _ hj]

theorem regimeModelSelect_fields (XO g BDIFF : ℚ) (b3 : AtmBody) :
    (regimeModelSelect XO g BDIFF b3).dAge = b3.dAge ∧
    (regimeModelSelect XO g BDIFF b3).dKTide = b3.dKTide ∧
    (regimeModelSelect XO g BDIFF b3).bRocheMessage = b3.bRocheMessage := by
  unfold regimeModelSelect
  split_ifs <;> simp [apply_ite]

theorem regimeMDot_fields (XO : ℚ) (b4 : AtmBody) :
    (regimeMDot XO b4).dAge = b4.dAge ∧
    (regimeMDot XO b4).dKTide = b4.dKTide ∧
    (regimeMDot XO b4).bRocheMessage = b4.bRocheMessage := by
  unfold regimeMDot
  split_ifs <;> simp

theorem regimeEscape_keep (XO g BDIFF : ℚ) (bs2 : ℕ → AtmBody) (i j : ℕ) :
    ((regimeEscape XO g BDIFF bs2 i) j).dAge = (bs2 j).dAge ∧
    ((regimeEscape XO g BDIFF bs2 i) j).dKTide = (bs2 j).dKTide ∧
    ((regimeEscape XO g BDIFF bs2 i) j).bRocheMessage = (bs2 j).bRocheMessage := by
  unfold regimeEscape
  rcases eq_or_ne j i with rfl | hj
  · rw [updBody_same]
    refine ⟨?_, ?_, ?_⟩
    · rw [(regimeMDot_fields _ _).1, (regimeModelSelect_fields _ _ _ _).1]
    · rw [(regimeMDot_fields _ _).2.1, (regimeModelSelect_fields _ _ _ _).2.1]
    · rw [(regimeMDot_fields _ _).2.2, (regimeModelSelect_fields _ _ _ _).2.2]
  · rw [updBody_other _ _ _ _ hj]
    exact ⟨rfl, rfl, rfl⟩

theorem propsAuxEscapeRegime_keep (L : AtmEscLib) (bs : ℕ → AtmBody) (i j : ℕ) :
    ((propsAuxEscapeRegime L bs i) j).dAge = (bs j).dAge ∧
    ((propsAuxEscapeRegime L bs i) j).dKTide = (bs j).dKTide ∧
    ((propsAuxEscapeRegime L bs i) j).bRocheMessage = (bs j).bRocheMessage := by
  unfold propsAuxEscapeRegime
  split_ifs with h
  · refine ⟨?_, ?_, ?_⟩
    · rw [(regimeEscape_keep _ _ _ _ i j).1, fbDWE_dAge, (propsAuxFHDiffLim_keep L bs i j).1]
    · rw [(regimeEscape_keep _ _ _ _ i j).2.1, fbDWE_dKTide,
        (propsAuxFHDiffLim_keep L bs i j).2.1]
    · rw [(regimeEscape_keep _ _ _ _ i j).2.2, fbDWE_bRocheMessage,
        (propsAuxFHDiffLim_keep L bs i j).2.2]
  · refine ⟨?_, ?_, ?_⟩
    · rw [(regimeNoEscape_keep _ i j).1, fbDWE_dAge, (propsAuxFHDiffLim_keep L bs i j).1]
    · rw [(regimeNoEscape_keep _ i j).2.1, fbDWE_dKTide,
        (propsAuxFHDiffLim_keep L bs i j).2.1]
    · rw [(regimeNoEscape_keep _ i j).2.2, fbDWE_bRocheMessage,
        (propsAuxFHDiffLim_keep L bs i j).2.2]

theorem propsAuxKTide_at (L : AtmEscLib) (v : ℕ) (bs : ℕ → AtmBody) (i : ℕ)
    (h : ¬((bs i).bBinary = true ∧ (bs i).iBodyType = 0)) :
    ((propsAuxKTide L v bs i) i).dKTide = 1 ∧
    (atmescXi L bs i > 1 →
      ((propsAuxKTide L v bs i) i).bRocheMessage = (bs i).bRocheMessage) ∧
    (¬ atmescXi L bs i > 1 →
      ((propsAuxKTide L v bs i) i).bRocheMessage
        = ((bs i).bRocheMessage || decide (VERBINPUT ≤ v))) := by
  unfold propsAuxKTide
  rw [if_neg h, updBody_same]
  refine ⟨rfl, ?_, ?_⟩
  · intro hgt
    rw [if_pos hgt]
  · intro hle
    rw [if_neg hle]
    have hroche : ∀ b : Bool, (bs i).bRocheMessage = b →
        (if ¬(bs i).bRocheMessage = true ∧ VERBINPUT ≤ v
          then {bs i with bRocheMessage := true} else bs i).bRocheMessage
          = ((bs i).bRocheMessage || decide (VERBINPUT ≤ v)) := by
      intro b hb
      cases b
      · by_cases hv : VERBINPUT ≤ v
        · rw [if_pos ⟨by simp [hb], hv⟩]
          simp [hb, hv]
        · rw [if_neg (by simp [hv])]
          simp [hb, decide_eq_false hv]
      · rw [if_neg (by simp [hb])]
        simp [hb]
    exact hroche _ rfl

theorem propsAuxAgeSync_other (bs : ℕ → AtmBody) (i j : ℕ) (hj : j ≠ i) :
    (propsAuxAgeSync bs i) j = bs j := by
  unfold propsAuxAgeSync; exact updBody_other _ _ _ _ hj

theorem propsAuxLehmer_other (L : AtmEscLib) (bs : ℕ → AtmBody) (i j : ℕ) (hj : j ≠ i) :
    (propsAuxLehmer L bs i) j = bs j := by
  unfold propsAuxLehmer
  split_ifs
  · exact updBody_other _ _ _ _ hj
  · rfl

theorem propsAuxKTide_other (L : AtmEscLib) (v : ℕ) (bs : ℕ → AtmBody) (i j : ℕ)
    (hj : j ≠ i) : (propsAuxKTide L v bs i) j = bs j := by
  unfold propsAuxKTide
  split_ifs <;> exact updBody_other _ _ _ _ hj

theorem propsAuxFXUV_other (L : AtmEscLib) (bs : ℕ → AtmBody) (i j : ℕ) (hj : j ≠ i) :
    (propsAuxFXUV L bs i) j = bs j := by
  unfold propsAuxFXUV
  split_ifs
  · exact updBody_other _ _ _ _ hj
  · rfl

theorem propsAuxEffH2O_other (L : AtmEscLib) (bs : ℕ → AtmBody) (i j : ℕ) (hj : j ≠ i) :
    (propsAuxEffH2O L bs i) j = bs j := by
  unfold propsAuxEffH2O
  split_ifs
  · exact updBody_other _ _ _ _ hj
  · rfl

theorem propsAuxFHRef_other (bs : ℕ → AtmBody) (i j : ℕ) (hj : j ≠ i) :
    (propsAuxFHRef bs i) j = bs j := by
  unfold propsAuxFHRef; exact updBody_other _ _ _ _ hj

theorem propsAuxFHDiffLim_other (L : AtmEscLib) (bs : ℕ → AtmBody) (i j : ℕ)
    (hj : j ≠ i) : (propsAuxFHDiffLim L bs i) j = bs j := by
  unfold propsAuxFHDiffLim; exact updBody_other _ _ _ _ hj

theorem fbDWE_other (L : AtmEscLib) (bs : ℕ → AtmBody) (i j : ℕ) (hj : j ≠ i) :
    ((fbDoesWaterEscape L bs i).2) j = bs j := by
  rcases fbDoesWaterEscape_snd L bs i with h | h <;> rw [h]
  exact updBody_other _ _ _ _ hj

theorem regimeNoEscape_other (bs2 : ℕ → AtmBody) (i j : ℕ) (hj : j ≠ i) :
    (regimeNoEscape bs2 i) j = bs2 j := by
  unfold regimeNoEscape; exact updBody_other _ _ _ _ hj

theorem regimeEscape_other (XO g BDIFF : ℚ) (bs2 : ℕ → AtmBody) (i j : ℕ) (hj : j ≠ i) :
    (regimeEscape XO g BDIFF bs2 i) j = bs2 j := by
  unfold regimeEscape; exact updBody_other _ _ _ _ hj

theorem propsAuxEscapeRegime_other (L : AtmEscLib) (bs : ℕ → AtmBody) (i j : ℕ)
    (hj : j ≠ i) : (propsAuxEscapeRegime L bs i) j = bs j := by
  unfold propsAuxEscapeRegime
  split_ifs
  · rw [regimeEscape_other _ _ _ _ i j hj, fbDWE_other L _ i j hj,
      propsAuxFHDiffLim_other L bs i j hj]
  · rw [regimeNoEscape_other _ i j hj, fbDWE_other L _ i j hj,
      propsAuxFHDiffLim_other L bs i j hj]

/-- The whole hook touches only body `iBody`. -/
theorem fnPropsAuxAtmEsc_other (L : AtmEscLib) (v : ℕ) (bs : ℕ → AtmBody) (i j : ℕ)
    (hj : j ≠ i) : (fnPropsAuxAtmEsc L v bs i) j = bs j := by
  unfold fnPropsAuxAtmEsc
  rw [propsAuxEscapeRegime_other L _ i j hj, propsAuxFHRef_other _ i j hj,
    propsAuxEffH2O_other L _ i j hj, propsAuxFXUV_other L _ i j hj,
    propsAuxKTide_other L v _ i j hj, propsAuxLehmer_other L _ i j hj,
    propsAuxAgeSync_other bs i j hj]

/-- The hook's only effect on any `dAge` field: body `iBody` receives body
0's age. -/
theorem fnPropsAuxAtmEsc_dAge (L : AtmEscLib) (v : ℕ) (bs : ℕ → AtmBody) (i j : ℕ) :
    ((fnPropsAuxAtmEsc L v bs i) j).dAge = if j = i then (bs 0).dAge else (bs j).dAge := by
  unfold fnPropsAuxAtmEsc
  rw [(propsAuxEscapeRegime_keep L _ i j).1, (propsAuxFHRef_keep _ i j).1,
    (propsAuxEffH2O_keep L _ i j).1, (propsAuxFXUV_keep L _ i j).1,
    propsAuxKTide_dAge, (propsAuxLehmer_fields L _ i j).1, propsAuxAgeSync_dAge]

/-- Non-claim core of claim C1: after the full hook the Ktide of a
non-circumbinary body is 1, with the one-shot warning latched exactly when
`ξ ≤ 1` at sufficient verbosity. -/
theorem ktideFinal (L : AtmEscLib) (v : ℕ) (bs : ℕ → AtmBody) (i : ℕ)
    (h : ¬((bs i).bBinary = true ∧ (bs i).iBodyType = 0)) :
    ((fnPropsAuxAtmEsc L v bs i) i).dKTide = 1 ∧
    (atmescXi L bs i > 1 →
      ((fnPropsAuxAtmEsc L v bs i) i).bRocheMessage = (bs i).bRocheMessage) ∧
    (¬ atmescXi L bs i > 1 →
      ((fnPropsAuxAtmEsc L v bs i) i).bRocheMessage
        = ((bs i).bRocheMessage || decide (VERBINPUT ≤ v))) := by
  have hM : ((propsAuxLehmer L (propsAuxAgeSync bs i) i) i).dMass = (bs i).dMass := by
    rw [(propsAuxLehmer_fields L (propsAuxAgeSync bs i) i i).2.1,
      (propsAuxAgeSync_fields bs i i).1]
  have hM0 : ((propsAuxLehmer L (propsAuxAgeSync bs i) i) 0).dMass = (bs 0).dMass := by
    rw [(propsAuxLehmer_fields L (propsAuxAgeSync bs i) i 0).2.1,
      (propsAuxAgeSync_fields bs i 0).1]
  have hS : ((propsAuxLehmer L (propsAuxAgeSync bs i) i) i).dSemi = (bs i).dSemi := by
    rw [(propsAuxLehmer_fields L (propsAuxAgeSync bs i) i i).2.2.1,
      (propsAuxAgeSync_fields bs i i).2.1]
  have hRd : ((propsAuxLehmer L (propsAuxAgeSync bs i) i) i).dRadius = (bs i).dRadius := by
    rw [(propsAuxLehmer_fields L (propsAuxAgeSync bs i) i i).2.2.2.1,
      (propsAuxAgeSync_fields bs i i).2.2.1]
  have hX : ((propsAuxLehmer L (propsAuxAgeSync bs i) i) i).dXFrac = (bs i).dXFrac := by
    rw [(propsAuxLehmer_fields L (propsAuxAgeSync bs i) i i).2.2.2.2.1,
      (propsAuxAgeSync_fields bs i i).2.2.2.1]
  have hB : ((propsAuxLehmer L (propsAuxAgeSync bs i) i) i).bBinary = (bs i).bBinary := by
    rw [(propsAuxLehmer_fields L (propsAuxAgeSync bs i) i i).2.2.2.2.2.1,
      (propsAuxAgeSync_fields bs i i).2.2.2.2.1]
  have hT : ((propsAuxLehmer L (propsAuxAgeSync bs i) i) i).iBodyType
      = (bs i).iBodyType := by
    rw [(propsAuxLehmer_fields L (propsAuxAgeSync bs i) i i).2.2.2.2.2.2.1,
      (propsAuxAgeSync_fields bs i i).2.2.2.2.2.1]
  have hR : ((propsAuxLehmer L (propsAuxAgeSync bs i) i) i).bRocheMessage
      = (bs i).bRocheMessage := by
    rw [(propsAuxLehmer_fields L (propsAuxAgeSync bs i) i i).2.2.2.2.2.2.2,
      (propsAuxAgeSync_fields bs i i).2.2.2.2.2.2]
  have hxi : atmescXi L (propsAuxLehmer L (propsAuxAgeSync bs i) i) i
      = atmescXi L bs i := by
    unfold atmescXi
    rw [hM, hM0, hS, hRd, hX]
  have h' : ¬(((propsAuxLehmer L (propsAuxAgeSync bs i) i) i).bBinary = true ∧
      ((propsAuxLehmer L (propsAuxAgeSync bs i) i) i).iBodyType = 0) := by
    rw [hB, hT]; exact h
  have hkt := propsAuxKTide_at L v (propsAuxLehmer L (propsAuxAgeSync bs i) i) i h'
  unfold fnPropsAuxAtmEsc
  refine ⟨?_, ?_, ?_⟩
  · rw [(propsAuxEscapeRegime_keep L _ i i).2.1, (propsAuxFHRef_keep _ i i).2.1,
      (propsAuxEffH2O_keep L _ i i).2.1, (propsAuxFXUV_keep L _ i i).2.1]
    exact hkt.1
  · intro hgt
    rw [(propsAuxEscapeRegime_keep L _ i i).2.2, (propsAuxFHRef_keep _ i i).2.2,
      (propsAuxEffH2O_keep L _ i i).2.2, (propsAuxFXUV_keep L _ i i).2.2,
      hkt.2.1 (hxi.symm ▸ hgt)]
    exact hR
  · intro hle
    rw [(propsAuxEscapeRegime_keep L _ i i).2.2, (propsAuxFHRef_keep _ i i).2.2,
      (propsAuxEffH2O_keep L _ i i).2.2, (propsAuxFXUV_keep L _ i i).2.2,
      hkt.2.2 (by rw [hxi]; exact hle), hR]

theorem atmescAuxPass_zero_age (L : AtmEscLib) (v : ℕ) (bodies : List ℕ) :
    ∀ bs : ℕ → AtmBody, ((atmescAuxPass L v bs bodies) 0).dAge = (bs 0).dAge := by
  induction bodies with
  | nil => intro bs; rfl
  | cons a rest ih =>
    intro bs
    show ((atmescAuxPass L v (fnPropsAuxAtmEsc L v bs a) rest) 0).dAge = (bs 0).dAge
    rw [ih, fnPropsAuxAtmEsc_dAge]
    split_ifs <;> rfl

theorem atmescAuxPass_not_mem (L : AtmEscLib) (v : ℕ) (bodies : List ℕ) (i : ℕ) :
    ∀ bs : ℕ → AtmBody, i ∉ bodies → (atmescAuxPass L v bs bodies) i = bs i := by
  induction bodies with
  | nil => intro bs _; rfl
  | cons a rest ih =>
    intro bs h
    have hne : i ≠ a := fun hc => h (hc ▸ List.mem_cons_self a rest)
    have hrest : i ∉ rest := fun hr => h (List.mem_cons_of_mem a hr)
    show (atmescAuxPass L v (fnPropsAuxAtmEsc L v bs a) rest) i = bs i
    rw [ih _ hrest, fnPropsAuxAtmEsc_other L v bs a i hne]

/-- Claim C10: every body processed by the AtmEsc auxiliary pass ends the
pass with its `dAge` equal to body 0's age (the hook's first statement
copies `body[0].dAge`, body 0's own age is never altered, and no later
hook invocation touches another body). -/
theorem claim10_age_sync (L : AtmEscLib) (v : ℕ) (bs : ℕ → AtmBody)
    (bodies : List ℕ) (i : ℕ) (h : i ∈ bodies) :
    ((atmescAuxPass L v bs bodies) i).dAge = (bs 0).dAge := by
  induction bodies generalizing bs with
  | nil => exact absurd h (List.not_mem_nil i)
  | cons a rest ih =>
    show ((atmescAuxPass L v (fnPropsAuxAtmEsc L v bs a) rest) i).dAge = (bs 0).dAge
    by_cases hm : i ∈ rest
    · rw [ih _ hm, fnPropsAuxAtmEsc_dAge]
      split_ifs <;> rfl
    · have hia : i = a := by
        rcases List.mem_cons.mp h with h' | h'
        · exact h'
        · exact absurd h' hm
      subst hia
      rw [atmescAuxPass_not_mem L v rest i _ hm, fnPropsAuxAtmEsc_dAge]
      simp

/-- Claim C10 witness: the pass over body 1 of the two-body fixture. -/
theorem claim10_witness :
    ((atmescAuxPass {} 0 ktideBodies [1]) 1).dAge = (ktideBodies 0).dAge :=
  claim10_age_sync {} 0 ktideBodies [1] 1 (List.mem_singleton.mpr rfl)

/-- Claim C1 counterexample: on the two-body fixture `ξ = 4 > 1`, yet after
`fnPropsAuxAtmEsc` the planet's `dKTide` is `1`, not the Roche-lobe value
`1 − 3/(2ξ) + 1/(2ξ³) = 81/128` the claim asserts (atmesc.c line 974
unconditionally overwrites the line-966 assignment). -/
theorem claim1_counterexample :
    atmescXi {} ktideBodies 1 = 4 ∧
    ((fnPropsAuxAtmEsc {} 0 ktideBodies 1) 1).dKTide = 1 ∧
    (1 - 3 / (2 * 4) + 1 / (2 * 4 ^ 3) : ℚ) ≠ 1 := by
  refine ⟨?_, ?_, by norm_num⟩
  · unfold atmescXi ktideBodies ktideStar ktidePlanet
    norm_num [AtmEscLib.powQ]
  · exact (ktideFinal {} 0 ktideBodies 1 (by simp [ktideBodies, ktidePlanet])).1

/-- Claim C1 (amended): for every non-circumbinary body the auxiliary pass
leaves `dKTide = 1` — when `ξ > 1` the Roche-lobe enhancement is computed
but immediately overwritten by the unconditional `dKTide = 1.0` — and the
one-shot Roche warning is latched exactly when `ξ ≤ 1`, the message has
not fired before, and the verbosity is at least `VERBINPUT`. -/
theorem claim1_ktide_overwritten (L : AtmEscLib) (v : ℕ) (bs : ℕ → AtmBody)
    (i : ℕ) (h : ¬((bs i).bBinary = true ∧ (bs i).iBodyType = 0)) :
    ((fnPropsAuxAtmEsc L v bs i) i).dKTide = 1 ∧
    (atmescXi L bs i > 1 →
      ((fnPropsAuxAtmEsc L v bs i) i).bRocheMessage = (bs i).bRocheMessage) ∧
    (¬ atmescXi L bs i > 1 →
      ((fnPropsAuxAtmEsc L v bs i) i).bRocheMessage
        = ((bs i).bRocheMessage || decide (VERBINPUT ≤ v))) :=
  ktideFinal L v bs i h

/-- Claim C1 witness: the amended statement at the two-body fixture. -/
theorem claim1_witness :
    ((fnPropsAuxAtmEsc {} 0 ktideBodies 1) 1).dKTide = 1 :=
  (claim1_ktide_overwritten {} 0 ktideBodies 1 (by simp [ktideBodies, ktidePlanet])).1

end VPlanet
